import Mathlib

/-!
Shallow embedding of the Telegram sticker-shop bot (`src/bot.py`): the cart
store, the checkout form state machine, session expiry, order totals, the
order-id counter and the confirm flow.  Money is represented in pence (the
source computes with two-decimal `Decimal` values, so every amount is an
exact integer number of pence); timestamps are seconds as naturals; the chat
transport is modelled by the `Msg` type listing the user-visible sends and
callback answers each handler produces.
-/

namespace StickerBot

/-- Python's per-user cart dict `user_carts[user_id]`: item name to quantity,
kept in insertion order like a Python dict. -/
abbrev Cart := List (String × Nat)

/-- `user_states[user_id]`: the checkout form, a step cursor and the collected
answers (`{"step": int, "data": {...}}`).  The transient `msg_id`
live-message handle the source sometimes stores alongside is a UI
reconciliation device (spec: "not authoritative state") and is not embedded. -/
structure Form where
  step : Nat
  data : List (String × String)
deriving DecidableEq

/-- One user's slice of the global stores `user_carts`, `user_states` and
`last_activity`.  An absent dict entry and an empty one are not distinguished
(no code path distinguishes them). -/
structure UserState where
  cart : Cart
  form : Option Form
  lastActivity : Option Nat
deriving DecidableEq

/-- The configuration surface from `config.json` (`DELIVERY_FEE`,
`FREE_DELIVERY_THRESHOLD`, `CURRENCY`, the catalog as name-price pence pairs)
together with the `MAINTENANCE` flag and whether `stripe.api_key` is set. -/
structure Config where
  delivery_fee : Nat
  free_delivery_threshold : Nat
  currency : String
  maintenance : Bool
  stripeEnabled : Bool
  catalog : List (String × Nat)
deriving DecidableEq

/-- A persisted order row of `orders.csv`, without the transport-supplied
username and wall-clock date columns. -/
structure OrderRecord where
  order_id : String
  items : String
  name : String
  house : String
  street : String
  city : String
  postcode : String
  status : String
  total : Nat
  currency : String
deriving DecidableEq

/-- The durable stores: `order_counter.json` and the `orders.csv` rows.  The
source dumps the counter file on every `generate_order_id` call and appends
one CSV row per confirmed order; both are modelled as explicit state. -/
structure Store where
  counters : List (String × Nat)
  orders : List OrderRecord
deriving DecidableEq

/-- User-visible outputs: `bot.send_message` payloads and
`bot.answer_callback_query` toasts (the latter prefixed `cb`).  Messages that
carry state-derived numbers keep them as fields. -/
inductive Msg where
  | cbSessionExpired
  | sessionExpired
  | maintenanceNotice
  | welcome
  | sessionReset
  | noProducts
  | catalogMenu
  | cbItemUnavailable
  | cbAdded (item : String)
  | cartView (subtotal : Nat) (units : Nat) (hasItems : Bool)
  | cbCleared
  | prompt (field : String)
  | cbNoPreviousStep
  | cbAlreadyFirst
  | validationError (field : String)
  | orderReview (subtotal delivery total : Nat)
  | cartEmptyReview
  | cbNoOrderToConfirm
  | cbCartEmpty
  | cbOrderSaved
  | payNow (orderId : String) (total : Nat)
  | paymentFailed
  | orderSavedNoStripe (orderId : String) (total : Nat)
  | unknownCommand
  | shopHint
deriving DecidableEq

/-- Association-list lookup, the embedding of Python `d.get(k)` / `k in d`
on an insertion-ordered dict. -/
def alookup {α : Type} : List (String × α) → String → Option α
  | [], _ => none
  | (k, v) :: rest, key => if k = key then some v else alookup rest key

/-- Association-list update, the embedding of Python `d[k] = v`: an existing
key keeps its position, a new key is appended. -/
def aset {α : Type} : List (String × α) → String → α → List (String × α)
  | [], key, v => [(key, v)]
  | (k, w) :: rest, key, v =>
      if k = key then (k, v) :: rest else (k, w) :: aset rest key v

/-- `user_carts[user_id][item] = user_carts[user_id].get(item, 0) + 1`
(bot.py line 689). -/
def bumpItem : Cart → String → Cart
  | [], item => [(item, 1)]
  | (k, q) :: rest, item =>
      if k = item then (k, q + 1) :: rest else (k, q) :: bumpItem rest item

/-- The characters Python `str.strip()` removes (ASCII whitespace). -/
def isStripChar (c : Char) : Bool :=
  c = ' ' || c = '\t' || c = '\n' || c = '\r' || c = '\x0b' || c = '\x0c'

/-- Embedding of Python `text.strip()`. -/
def pyStrip (s : String) : String :=
  ⟨((s.data.dropWhile isStripChar).reverse.dropWhile isStripChar).reverse⟩

/-- Embedding of `text.startswith("/")` (bot.py line 913). -/
def startsWithSlash (s : String) : Bool :=
  match s.data with
  | [] => false
  | c :: _ => c = '/'

/-- `delivery_steps` (bot.py line 188). -/
def delivery_steps : List String := ["name", "house", "street", "city", "postcode"]

/-- `validate_field` (bot.py lines 249-269): the loose rules actually in the
source (name needs only two characters after strip, no space required). -/
def validate_field (field : String) (text : String) : Bool :=
  let t := pyStrip text
  if field = "name" then 2 ≤ t.length
  else if field = "house" then 1 ≤ t.length
  else if field = "street" then 2 ≤ t.length
  else if field = "city" then 2 ≤ t.length
  else if field = "postcode" then 4 ≤ t.length
  else true

/-- `SESSION_TIMEOUT_SECONDS` (bot.py line 38). -/
def SESSION_TIMEOUT_SECONDS : Nat := 3600

/-- `has_active_session` (bot.py lines 317-322). -/
def has_active_session (u : UserState) : Bool :=
  u.form.isSome || !u.cart.isEmpty

/-- `clear_session` (bot.py lines 330-335): pops cart, checkout state and the
activity timestamp. -/
def clear_session (_u : UserState) : UserState :=
  { cart := [], form := none, lastActivity := none }

/-- The condition under which `check_and_handle_expiry` (bot.py lines 338-360)
fires: some active state, a recorded timestamp, and strictly more than the
timeout elapsed. -/
def sessionExpiredNow (u : UserState) (now : Nat) : Bool :=
  has_active_session u &&
    match u.lastActivity with
    | none => false
    | some ts => SESSION_TIMEOUT_SECONDS < now - ts

/-- `check_and_handle_expiry` (bot.py lines 338-360): on expiry clears the
session, answers the callback (when one triggered it) and sends the expiry
message; returns whether it fired. -/
def check_and_handle_expiry (u : UserState) (now : Nat) (isCallback : Bool) :
    UserState × Bool × List Msg :=
  if sessionExpiredNow u now then
    (clear_session u, true,
      (if isCallback then [Msg.cbSessionExpired] else []) ++ [Msg.sessionExpired])
  else (u, false, [])

/-- Little-endian base-10 digits with explicit fuel (structural embedding of
the decimal rendering Python's `f"{count:02d}"` performs). -/
def digitsRev : Nat → Nat → List Nat
  | 0, _ => []
  | _ + 1, 0 => []
  | fuel + 1, n + 1 => ((n + 1) % 10) :: digitsRev fuel ((n + 1) / 10)

/-- Base-10 digits of `n`, least significant first (`n` itself is enough fuel). -/
def natDigits (n : Nat) : List Nat := digitsRev n n

/-- The character for one decimal digit. -/
def digitChar (d : Nat) : Char := Char.ofNat (48 + d)

/-- Decimal rendering of a natural (Python `str(n)` for `n > 0`; `0` renders
as the empty string, which no minted counter ever is). -/
def natStr (n : Nat) : String :=
  ⟨((natDigits n).reverse).map digitChar⟩

/-- Python `f"{n:02d}"`: pad with one leading zero below 10. -/
def pad2 (n : Nat) : String :=
  if n < 10 then "0" ++ natStr n else natStr n

/-- The f-string of `generate_order_id` (bot.py line 242):
`f"ORD-{today}-{count:02d}"`. -/
def orderIdString (today : String) (count : Nat) : String :=
  "ORD-" ++ today ++ "-" ++ pad2 count

/-- `generate_order_id` (bot.py lines 235-242): reads the per-day counter,
increments it, persists the counter map (threaded state here; the source
rewrites `order_counter.json` on every call) and renders the friendly id. -/
def generate_order_id (counters : List (String × Nat)) (today : String) :
    String × List (String × Nat) :=
  let count := (alookup counters today).getD 0 + 1
  (orderIdString today count, aset counters today count)

/-- The current per-day counter value (`order_counters.get(today, 0)`). -/
def baseCount (counters : List (String × Nat)) (today : String) : Nat :=
  (alookup counters today).getD 0

/-- `n` successive `generate_order_id` calls on the same day, returning the
minted ids and the final counter state. -/
def mintList : Nat → List (String × Nat) → String → List String × List (String × Nat)
  | 0, cs, _ => ([], cs)
  | n + 1, cs, today =>
      let p := generate_order_id cs today
      let q := mintList n p.2 today
      (p.1 :: q.1, q.2)

/-- Subtotal over cart entries whose product still resolves in the catalog
(stale items silently skipped), in pence — the summation shared by
`build_cart_text`, `send_order_review` and `confirm_order`. -/
def cartSubtotal (catalog : List (String × Nat)) (cart : Cart) : Nat :=
  cart.foldl
    (fun acc p =>
      match alookup catalog p.1 with
      | some price => acc + price * p.2
      | none => acc)
    0

/-- `total_items` of `build_cart_text`: units over resolvable entries. -/
def cartUnitCount (catalog : List (String × Nat)) (cart : Cart) : Nat :=
  cart.foldl (fun acc p => if (alookup catalog p.1).isSome then acc + p.2 else acc) 0

/-- `build_cart_text` (bot.py lines 379-406), reduced to the state-derived
content of the rendered text: the figure printed as `*Total:*` (which is just
the subtotal — this cart view adds no delivery fee, "delivery always free"),
the unit count, and the `has_items` flag (true for any non-empty cart dict). -/
def build_cart_text (catalog : List (String × Nat)) (cart : Cart) :
    Nat × Nat × Bool :=
  if cart = [] then (0, 0, false)
  else (cartSubtotal catalog cart, cartUnitCount catalog cart, true)

/-- The delivery-fee rule of `send_order_review` (bot.py lines 490-493) and
`confirm_order` (line 959): zero at or above the free-delivery threshold,
else the flat fee. -/
def computeDelivery (cfg : Config) (subtotal : Nat) : Nat :=
  if cfg.free_delivery_threshold ≤ subtotal then 0 else cfg.delivery_fee

/-- (subtotal, delivery, total) as derived in `send_order_review` and
`confirm_order`. -/
def computeTotals (cfg : Config) (cart : Cart) : Nat × Nat × Nat :=
  let s := cartSubtotal cfg.catalog cart
  let d := computeDelivery cfg s
  (s, d, s + d)

/-- `cart_summary` of `confirm_order` (bot.py lines 963-965):
`", ".join(f"{qty}x {item}" ...)` over resolvable items. -/
def cartSummary (catalog : List (String × Nat)) (cart : Cart) : String :=
  String.intercalate ", "
    (cart.filterMap
      (fun p =>
        if (alookup catalog p.1).isSome then some (natStr p.2 ++ "x " ++ p.1)
        else none))

/-- `info[field]` reads in `confirm_order` / `send_order_review`.  Python
raises `KeyError` on a missing field; every flow verified here reaches these
reads only with all five answers collected, so the absent case is defaulted. -/
def getAns (data : List (String × String)) (field : String) : String :=
  (alookup data field).getD ""

/-- `refresh_cart_message` (bot.py lines 410-443), reduced to the cart-view
message it edits or sends. -/
def refresh_cart_message (catalog : List (String × Nat)) (cart : Cart) : Msg :=
  let t := build_cart_text catalog cart
  Msg.cartView t.1 t.2.1 t.2.2

/-- `add_to_cart` callback handler (bot.py lines 672-694): expiry guard,
unknown-product check, activity touch, quantity bump, cart refresh.  It never
consults the maintenance flag. -/
def add_to_cart (cfg : Config) (u : UserState) (now : Nat) (item : String) :
    UserState × List Msg :=
  let g := check_and_handle_expiry u now true
  if g.2.1 then (g.1, g.2.2)
  else if (alookup cfg.catalog item).isNone then (u, [Msg.cbItemUnavailable])
  else
    let u' : UserState :=
      { u with lastActivity := some now, cart := bumpItem u.cart item }
    (u', [Msg.cbAdded item, refresh_cart_message cfg.catalog u'.cart])

/-- `clear_cart` callback handler (bot.py lines 733-745): expiry guard,
activity touch, `user_carts[user_id] = {}`, cart refresh.  No maintenance
check. -/
def clear_cart (cfg : Config) (u : UserState) (now : Nat) : UserState × List Msg :=
  let g := check_and_handle_expiry u now true
  if g.2.1 then (g.1, g.2.2)
  else
    let u' : UserState := { u with lastActivity := some now, cart := [] }
    (u', [Msg.cbCleared, refresh_cart_message cfg.catalog u'.cart])

/-- `go_back` callback handler (bot.py lines 819-851).  Note: unlike every
other mutating handler it performs no `check_and_handle_expiry` call and no
`update_activity`. -/
def go_back (u : UserState) : UserState × List Msg :=
  match u.form with
  | none => (u, [Msg.cbNoPreviousStep])
  | some f =>
      if f.step = 0 then (u, [Msg.cbAlreadyFirst])
      else
        ({ u with form := some { step := f.step - 1, data := f.data } },
         [Msg.prompt (delivery_steps.getD (f.step - 1) "")])

/-- `send_order_review` (bot.py lines 461-521): pins the cursor to the field
count, aborts with a session reset if the cart emptied, else renders the
review with re-derived totals. -/
def send_order_review (cfg : Config) (u : UserState) : UserState × List Msg :=
  let u' : UserState :=
    { u with form := u.form.map (fun f => { f with step := delivery_steps.length }) }
  if u'.cart = [] then (clear_session u', [Msg.cartEmptyReview])
  else
    let t := computeTotals cfg u'.cart
    (u', [Msg.orderReview t.1 t.2.1 t.2.2])

/-- `handle_checkout_input` (bot.py lines 876-925): the catch-all text
handler.  With a form in progress: expiry guard, silent return at or past the
last step, field validation (failure re-prompts without touching state),
else store the stripped answer, advance, touch activity, and either prompt
the next field or enter the review.  Without a form: a help reply. -/
def handle_checkout_input (cfg : Config) (u : UserState) (now : Nat) (raw : String) :
    UserState × List Msg :=
  let text := pyStrip raw
  match u.form with
  | some f =>
      let g := check_and_handle_expiry u now false
      if g.2.1 then (g.1, g.2.2)
      else if delivery_steps.length ≤ f.step then (u, [])
      else
        let field := delivery_steps.getD f.step ""
        if validate_field field text = false then
          (u, [Msg.validationError field, Msg.prompt field])
        else
          let u' : UserState :=
            { u with
                form := some { step := f.step + 1, data := aset f.data field text },
                lastActivity := some now }
          if delivery_steps.length ≤ f.step + 1 then send_order_review cfg u'
          else (u', [Msg.prompt (delivery_steps.getD (f.step + 1) "")])
  | none =>
      if startsWithSlash text then (u, [Msg.unknownCommand]) else (u, [Msg.shopHint])

/-- `confirm_order` (bot.py lines 932-1080): expiry guard, state checks,
re-derived totals, order-id mint, CSV append with status `"pending"`, admin
notification, optional Stripe checkout (outcome passed in as `payOk`), final
session reset.  `notify_admins` (lines 525-566) only assigns `delivery_text`
under `if delivery:` — with a zero delivery fee the reference raises
`UnboundLocalError`, aborting the handler after the CSV append and before the
payment step and the session reset; that crash is the final `Bool`. -/
def confirm_order (cfg : Config) (store : Store) (u : UserState) (now : Nat)
    (today : String) (payOk : Bool) : UserState × Store × List Msg × Bool :=
  let g := check_and_handle_expiry u now true
  if g.2.1 then (g.1, store, g.2.2, false)
  else
    match u.form with
    | none => (u, store, [Msg.cbNoOrderToConfirm], false)
    | some f =>
        if u.cart = [] then
          (clear_session u, store, [Msg.cbCartEmpty, Msg.cartEmptyReview], false)
        else
          let t := computeTotals cfg u.cart
          let gen := generate_order_id store.counters today
          let record : OrderRecord :=
            { order_id := gen.1
              items := cartSummary cfg.catalog u.cart
              name := getAns f.data "name"
              house := getAns f.data "house"
              street := getAns f.data "street"
              city := getAns f.data "city"
              postcode := getAns f.data "postcode"
              status := "pending"
              total := t.2.2
              currency := cfg.currency }
          let store' : Store :=
            { counters := gen.2, orders := store.orders ++ [record] }
          if t.2.1 = 0 then (u, store', [Msg.cbOrderSaved], true)
          else if cfg.stripeEnabled then
            if payOk then
              (clear_session u, store', [Msg.cbOrderSaved, Msg.payNow gen.1 t.2.2], false)
            else
              (clear_session u, store', [Msg.cbOrderSaved, Msg.paymentFailed], false)
          else
            (clear_session u, store',
             [Msg.cbOrderSaved, Msg.orderSavedNoStripe gen.1 t.2.2], false)

/-- `/start` command handler (bot.py lines 577-595): `is_down` gate, activity
touch, welcome text. -/
def start (cfg : Config) (u : UserState) (now : Nat) : UserState × List Msg :=
  if cfg.maintenance then (u, [Msg.maintenanceNotice])
  else ({ u with lastActivity := some now }, [Msg.welcome])

/-- `/restart` command handler (bot.py lines 598-607): `is_down` gate, then a
full session reset. -/
def restart (cfg : Config) (u : UserState) : UserState × List Msg :=
  if cfg.maintenance then (u, [Msg.maintenanceNotice])
  else (clear_session u, [Msg.sessionReset])

/-- `/order` command handler (bot.py lines 627-665): `is_down` gate, activity
touch, menu cleanup, then the catalog menu (or a no-products notice). -/
def order (cfg : Config) (u : UserState) (now : Nat) : UserState × List Msg :=
  if cfg.maintenance then (u, [Msg.maintenanceNotice])
  else
    let u' : UserState := { u with lastActivity := some now }
    if cfg.catalog = [] then (u', [Msg.noProducts]) else (u', [Msg.catalogMenu])

/-- Cart operations quantified over in the invariant claims.  `add` and
`clear` are the two that exist in `src/bot.py`. -/
inductive CartOp where
  | add (item : String)
  | increment (item : String)
  | decrement (item : String)
  | remove (item : String)
  | clear
deriving DecidableEq

/-- Modelled from the spec: `increment(user, product)` (spec section 4.2) has
no implementation in `src/bot.py`; per the spec it raises the quantity by
one, exactly the `add` bump. -/
def incrementItem (c : Cart) (item : String) : Cart := bumpItem c item

/-- Modelled from the spec: `decrement(user, product)` (spec section 4.2) has
no implementation in `src/bot.py`; per the spec a decrement "floors at 1
(never auto-removes on decrement to 0)". -/
def decrementItem : Cart → String → Cart
  | [], _ => []
  | (k, q) :: rest, item =>
      if k = item then (k, max (q - 1) 1) :: rest
      else (k, q) :: decrementItem rest item

/-- Modelled from the spec: `remove(user, product)` (spec section 4.2) has no
implementation in `src/bot.py`; per the spec it "deletes the key if present;
no-op otherwise". -/
def removeItem : Cart → String → Cart
  | [], _ => []
  | (k, q) :: rest, item =>
      if k = item then removeItem rest item else (k, q) :: removeItem rest item

/-- One cart operation.  `add` is the mutation of the `add_to_cart` handler
including its catalog gate; `clear` is `user_carts[user_id] = {}` from
`clear_cart`. -/
def applyCartOp (catalog : List (String × Nat)) (c : Cart) : CartOp → Cart
  | .add item => if (alookup catalog item).isSome then bumpItem c item else c
  | .increment item => incrementItem c item
  | .decrement item => decrementItem c item
  | .remove item => removeItem c item
  | .clear => []

/-- Every present cart entry has quantity at least one. -/
def cartInv (c : Cart) : Prop := ∀ p ∈ c, 1 ≤ p.2

/-- Value of a little-endian digit list, the inverse of `digitsRev`. -/
def undigits : List Nat → Nat
  | [] => 0
  | d :: l => d + 10 * undigits l

/-- The spec's running example configuration: one product "Sticker A" at
3.00, flat delivery fee 2.50, free-delivery threshold 10.00 (all in pence),
Stripe configured, maintenance off. -/
def exCfg : Config :=
  { delivery_fee := 250, free_delivery_threshold := 1000, currency := "GBP",
    maintenance := false, stripeEnabled := true, catalog := [("Sticker A", 300)] }

/-- The example configuration with the maintenance flag switched on. -/
def exCfgMaint : Config := { exCfg with maintenance := true }

/-- A complete set of delivery answers. -/
def fullData : List (String × String) :=
  [("name", "Jo Smith"), ("house", "12"), ("street", "High Street"),
   ("city", "Leeds"), ("postcode", "LS1 1AA")]

/-- Answers collected after the first two steps. -/
def midData : List (String × String) := [("name", "Jo Smith"), ("house", "12")]

/-- A user with no cart, no form and no recorded activity. -/
def uFresh : UserState := { cart := [], form := none, lastActivity := none }

/-- A user at checkout step 0 with one item in the cart, last active at 0. -/
def uStart : UserState :=
  { cart := [("Sticker A", 1)], form := some ⟨0, []⟩, lastActivity := some 0 }

/-- A user at checkout step 2 with one item in the cart, last active at 0. -/
def uMid : UserState :=
  { cart := [("Sticker A", 1)], form := some ⟨2, midData⟩, lastActivity := some 0 }

/-- A user on the review screen (cursor 5) with 2 units of "Sticker A"
(subtotal 6.00, below the threshold), last active at 0. -/
def uReview : UserState :=
  { cart := [("Sticker A", 2)], form := some ⟨5, fullData⟩, lastActivity := some 0 }

/-- A user on the review screen with 4 units of "Sticker A" (subtotal 12.00,
at or above the free-delivery threshold), last active at 0. -/
def uFree : UserState :=
  { cart := [("Sticker A", 4)], form := some ⟨5, fullData⟩, lastActivity := some 0 }

/-- Empty durable stores. -/
def store0 : Store := { counters := [], orders := [] }

/-- The order row `confirm_order` appends for `uReview` under `exCfg`. -/
def record850 : OrderRecord :=
  { order_id := "ORD-251012-01", items := "2x Sticker A", name := "Jo Smith",
    house := "12", street := "High Street", city := "Leeds",
    postcode := "LS1 1AA", status := "pending", total := 850, currency := "GBP" }

/-- The order row `confirm_order` appends for `uFree` under `exCfg`. -/
def record1200 : OrderRecord :=
  { order_id := "ORD-251012-01", items := "4x Sticker A", name := "Jo Smith",
    house := "12", street := "High Street", city := "Leeds",
    postcode := "LS1 1AA", status := "pending", total := 1200, currency := "GBP" }

theorem digitsRev_zero (fuel : Nat) : digitsRev fuel 0 = [] := by
  cases fuel <;> rfl

theorem undigits_digitsRev : ∀ fuel n, n ≤ fuel → undigits (digitsRev fuel n) = n := by
  intro fuel
  induction fuel with
  | zero =>
      intro n hn
      have h0 : n = 0 := by omega
      subst h0; rfl
  | succ f ih =>
      intro n hn
      cases n with
      | zero => rfl
      | succ m =>
          have hstep : digitsRev (f + 1) (m + 1)
              = ((m + 1) % 10) :: digitsRev f ((m + 1) / 10) := rfl
          have hfuel : (m + 1) / 10 ≤ f := by omega
          rw [hstep]
          simp only [undigits, ih _ hfuel]
          omega

theorem digitsRev_lt : ∀ fuel n d, d ∈ digitsRev fuel n → d < 10 := by
  intro fuel
  induction fuel with
  | zero => intro n d h; simp [digitsRev] at h
  | succ f ih =>
      intro n d h
      cases n with
      | zero => simp [digitsRev] at h
      | succ m =>
          have hstep : digitsRev (f + 1) (m + 1)
              = ((m + 1) % 10) :: digitsRev f ((m + 1) / 10) := rfl
          rw [hstep] at h
          rcases List.mem_cons.mp h with h | h
          · subst h; omega
          · exact ih _ _ h

theorem digitsRev_reverse_head : ∀ fuel n, 1 ≤ n → n ≤ fuel →
    ∃ d l, (digitsRev fuel n).reverse = d :: l ∧ d ≠ 0 ∧ d < 10 := by
  intro fuel
  induction fuel with
  | zero => intro n h1 h2; omega
  | succ f ih =>
      intro n h1 h2
      cases n with
      | zero => omega
      | succ m =>
          have hstep : digitsRev (f + 1) (m + 1)
              = ((m + 1) % 10) :: digitsRev f ((m + 1) / 10) := rfl
          rw [hstep]
          by_cases hq : (m + 1) / 10 = 0
          · rw [hq, digitsRev_zero]
            exact ⟨(m + 1) % 10, [], by simp, by omega, by omega⟩
          · obtain ⟨d, l, hdl, hd0, hd10⟩ := ih ((m + 1) / 10) (by omega) (by omega)
            refine ⟨d, l ++ [(m + 1) % 10], ?_, hd0, hd10⟩
            rw [List.reverse_cons, hdl]
            rfl

theorem digitChar_injOn : ∀ d₁, d₁ < 10 → ∀ d₂, d₂ < 10 →
    digitChar d₁ = digitChar d₂ → d₁ = d₂ := by decide

theorem digitChar_ne_zeroChar : ∀ d, d < 10 → d ≠ 0 → digitChar d ≠ '0' := by decide

theorem map_digitChar_inj : ∀ l₁ l₂ : List Nat, (∀ d ∈ l₁, d < 10) →
    (∀ d ∈ l₂, d < 10) → l₁.map digitChar = l₂.map digitChar → l₁ = l₂ := by
  intro l₁
  induction l₁ with
  | nil =>
      intro l₂ _ _ h
      cases l₂ with
      | nil => rfl
      | cons b t => simp at h
  | cons a t ih =>
      intro l₂ h₁ h₂ h
      cases l₂ with
      | nil => simp at h
      | cons b t₂ =>
          simp only [List.map_cons, List.cons.injEq] at h
          have hab := digitChar_injOn a (h₁ a (by simp)) b (h₂ b (by simp)) h.1
          have ht := ih t₂ (fun d hd => h₁ d (by simp [hd]))
            (fun d hd => h₂ d (by simp [hd])) h.2
          rw [hab, ht]

theorem natStr_data (n : Nat) :
    (natStr n).data = ((natDigits n).reverse).map digitChar := rfl

theorem natStr_data_inj {m n : Nat} (h : (natStr m).data = (natStr n).data) :
    m = n := by
  rw [natStr_data, natStr_data] at h
  have hm : ∀ d ∈ (natDigits m).reverse, d < 10 :=
    fun d hd => digitsRev_lt m m d (List.mem_reverse.mp hd)
  have hn : ∀ d ∈ (natDigits n).reverse, d < 10 :=
    fun d hd => digitsRev_lt n n d (List.mem_reverse.mp hd)
  have h2 := List.reverse_injective (map_digitChar_inj _ _ hm hn h)
  have h3 := congrArg undigits h2
  simp only [natDigits] at h3
  rwa [undigits_digitsRev m m le_rfl, undigits_digitsRev n n le_rfl] at h3

theorem dataAppend (a b : String) : (a ++ b).data = a.data ++ b.data := by
  cases a; cases b; rfl

theorem pad2_small_inj : ∀ m, m < 10 → ∀ n, n < 10 →
    (pad2 m).data = (pad2 n).data → m = n := by decide

theorem pad2_mixed {m n : Nat} (hm : m < 10) (hn : ¬ n < 10) :
    (pad2 m).data ≠ (pad2 n).data := by
  intro h
  have h1 : (pad2 m).data = '0' :: (natStr m).data := by
    simp only [pad2, if_pos hm, dataAppend]
    rfl
  obtain ⟨d, l, hdl, hd0, hd10⟩ := digitsRev_reverse_head n n (by omega) le_rfl
  have h2 : (pad2 n).data = digitChar d :: l.map digitChar := by
    simp only [pad2, if_neg hn, natStr_data, natDigits, hdl, List.map_cons]
  rw [h1, h2] at h
  exact digitChar_ne_zeroChar d hd10 hd0 (List.head_eq_of_cons_eq h).symm

theorem pad2_data_inj {m n : Nat} (h : (pad2 m).data = (pad2 n).data) : m = n := by
  by_cases hm : m < 10 <;> by_cases hn : n < 10
  · exact pad2_small_inj m hm n hn h
  · exact absurd h (pad2_mixed hm hn)
  · exact absurd h.symm (pad2_mixed hn hm)
  · simp only [pad2, if_neg hm, if_neg hn] at h
    exact natStr_data_inj h

theorem orderIdString_data (today : String) (c : Nat) :
    (orderIdString today c).data
      = ("ORD-" ++ today ++ "-").data ++ (pad2 c).data := by
  simp [orderIdString, dataAppend, List.append_assoc]

theorem orderIdString_count_inj {today : String} {c₁ c₂ : Nat}
    (h : orderIdString today c₁ = orderIdString today c₂) : c₁ = c₂ := by
  have hd := congrArg String.data h
  rw [orderIdString_data, orderIdString_data] at hd
  have h2 := congrArg (List.drop (("ORD-" ++ today ++ "-").data.length)) hd
  simp only [List.drop_left] at h2
  exact pad2_data_inj h2

theorem alookup_aset {α : Type} (cs : List (String × α)) (k : String) (v : α) :
    alookup (aset cs k v) k = some v := by
  induction cs with
  | nil => simp [aset, alookup]
  | cons p rest ih =>
      obtain ⟨a, b⟩ := p
      by_cases h : a = k
      · simp [aset, alookup, h]
      · simp [aset, alookup, h, ih]

theorem baseCount_gen (cs : List (String × Nat)) (today : String) :
    baseCount (generate_order_id cs today).2 today = baseCount cs today + 1 := by
  simp [generate_order_id, baseCount, alookup_aset]

theorem mintList_fst : ∀ (n : Nat) (cs : List (String × Nat)) (today : String),
    (mintList n cs today).1
      = (List.range n).map (fun m => orderIdString today (baseCount cs today + m + 1)) := by
  intro n
  induction n with
  | zero => intro cs today; rfl
  | succ k ih =>
      intro cs today
      have step : (mintList (k + 1) cs today).1
          = (generate_order_id cs today).1
              :: (mintList k (generate_order_id cs today).2 today).1 := rfl
      rw [step, ih, baseCount_gen]
      have hid : (generate_order_id cs today).1
          = orderIdString today (baseCount cs today + 1) := rfl
      rw [hid, List.range_succ_eq_map, List.map_cons, List.map_map]
      refine congrArg₂ List.cons (by norm_num) ?_
      refine List.map_congr_left fun m _ => ?_
      simp only [Function.comp]
      congr 1
      omega

theorem bumpItem_inv : ∀ (c : Cart) (item : String), cartInv c → cartInv (bumpItem c item) := by
  intro c item
  induction c with
  | nil =>
      intro _ p hp
      simp only [bumpItem, List.mem_singleton] at hp
      simp [hp]
  | cons q rest ih =>
      obtain ⟨k, v⟩ := q
      intro h p hp
      have hrest : cartInv rest := fun r hr => h r (List.mem_cons_of_mem _ hr)
      by_cases hk : k = item
      · simp only [bumpItem, if_pos hk] at hp
        rcases List.mem_cons.mp hp with hp | hp
        · rw [hp]; exact Nat.le_add_left 1 v
        · exact hrest p hp
      · simp only [bumpItem, if_neg hk] at hp
        rcases List.mem_cons.mp hp with hp | hp
        · rw [hp]; exact h (k, v) (List.mem_cons_self _ _)
        · exact ih hrest p hp

theorem decrementItem_inv : ∀ (c : Cart) (item : String),
    cartInv c → cartInv (decrementItem c item) := by
  intro c item
  induction c with
  | nil => intro _ p hp; simp [decrementItem] at hp
  | cons q rest ih =>
      obtain ⟨k, v⟩ := q
      intro h p hp
      have hrest : cartInv rest := fun r hr => h r (List.mem_cons_of_mem _ hr)
      by_cases hk : k = item
      · simp only [decrementItem, if_pos hk] at hp
        rcases List.mem_cons.mp hp with hp | hp
        · rw [hp]; exact Nat.le_max_right _ _
        · exact hrest p hp
      · simp only [decrementItem, if_neg hk] at hp
        rcases List.mem_cons.mp hp with hp | hp
        · rw [hp]; exact h (k, v) (List.mem_cons_self _ _)
        · exact ih hrest p hp

theorem removeItem_inv : ∀ (c : Cart) (item : String),
    cartInv c → cartInv (removeItem c item) := by
  intro c item
  induction c with
  | nil => intro _ p hp; simp [removeItem] at hp
  | cons q rest ih =>
      obtain ⟨k, v⟩ := q
      intro h p hp
      have hrest : cartInv rest := fun r hr => h r (List.mem_cons_of_mem _ hr)
      by_cases hk : k = item
      · simp only [removeItem, if_pos hk] at hp
        exact ih hrest p hp
      · simp only [removeItem, if_neg hk] at hp
        rcases List.mem_cons.mp hp with hp | hp
        · rw [hp]; exact h (k, v) (List.mem_cons_self _ _)
        · exact ih hrest p hp

theorem applyCartOp_inv (catalog : List (String × Nat)) (c : Cart) (op : CartOp)
    (h : cartInv c) : cartInv (applyCartOp catalog c op) := by
  cases op with
  | add item =>
      simp only [applyCartOp]
      split
      · exact bumpItem_inv c item h
      · exact h
  | increment item => exact bumpItem_inv c item h
  | decrement item => exact decrementItem_inv c item h
  | remove item => exact removeItem_inv c item h
  | clear => intro p hp; simp [applyCartOp] at hp

theorem foldl_cartInv (catalog : List (String × Nat)) :
    ∀ (ops : List CartOp) (c : Cart), cartInv c →
      cartInv (ops.foldl (applyCartOp catalog) c) := by
  intro ops
  induction ops with
  | nil => intro c h; exact h
  | cons op rest ih =>
      intro c h
      exact ih _ (applyCartOp_inv catalog c op h)

/-- C1: the claim says the name "Jo" (no space, fewer than 3 characters) is
rejected and the cursor does not advance.  The source's `validate_field`
accepts any name of trimmed length at least 2 with no space requirement, so
"Jo" passes validation and the cursor advances from step 0 to step 1;
"Jo Smith" is accepted as the claim states. -/
theorem name_validation_code_eval :
    validate_field "name" "Jo" = true
    ∧ validate_field "name" "Jo Smith" = true
    ∧ handle_checkout_input exCfg uStart 0 "Jo"
        = ({ uStart with form := some ⟨1, [("name", "Jo")]⟩, lastActivity := some 0 },
           [Msg.prompt "house"]) := by decide

/-- C2 counterexample: at the claim's own example (2 units of a 3.00 product,
fee 2.50, threshold 10.00) the cart view derives 6.00 as its displayed
total, not subtotal + delivery_fee = 8.50, because `build_cart_text` adds no
delivery fee at all — so the claimed formula does not hold everywhere a cart
total is derived. -/
theorem cart_view_total_counterexample :
    build_cart_text exCfg.catalog [("Sticker A", 2)] = (600, 2, true)
    ∧ computeDelivery exCfg 600 = 250
    ∧ (600 : Nat) ≠ 600 + computeDelivery exCfg 600 := by decide

/-- C2 (amended): at the order review and the confirmation, delivery is 0 when
the subtotal reaches the free-delivery threshold and the flat fee otherwise,
and total = subtotal + delivery; the example cart yields 6.00 / 2.50 / 8.50
there.  The cart view, by contrast, displays the bare subtotal with no
delivery fee. -/
theorem totals_formula :
    (∀ (cfg : Config) (cart : Cart),
        (computeTotals cfg cart).2.1
            = (if cfg.free_delivery_threshold ≤ (computeTotals cfg cart).1 then 0
               else cfg.delivery_fee)
        ∧ (computeTotals cfg cart).2.2
            = (computeTotals cfg cart).1 + (computeTotals cfg cart).2.1)
    ∧ computeTotals exCfg [("Sticker A", 2)] = (600, 250, 850)
    ∧ (send_order_review exCfg uReview).2 = [Msg.orderReview 600 250 850]
    ∧ (confirm_order exCfg store0 uReview 0 "251012" true).2.1.orders.map
        (fun r => (r.status, r.total)) = [("pending", 850)] :=
  ⟨fun _ _ => ⟨rfl, rfl⟩, by decide, by decide, by decide⟩

/-- C3 counterexample: a user with a non-empty cart and an in-progress form,
inactive for two hours, presses back at step 2.  `go_back` runs no expiry
guard: the cart survives, the form is not destroyed, no expiry notice is
sent, and the requested operation IS applied (the cursor moves to step 1). -/
theorem back_skips_expiry_guard :
    sessionExpiredNow uMid 7200 = true
    ∧ go_back uMid = ({ uMid with form := some ⟨1, midData⟩ }, [Msg.prompt "house"])
    ∧ (go_back uMid).1.cart = [("Sticker A", 1)] := by decide

/-- C3 (amended): on the add-to-cart, clear-cart, checkout text-submit (with a
form in progress) and confirm entry points, an expired session with active
state is destroyed, the user is notified, and the requested operation is not
applied; the back handler performs no expiry check at all (see the
counterexample). -/
theorem expiry_guard_on_mutating_entries :
    ∀ (cfg : Config) (store : Store) (u : UserState) (now : Nat)
      (today item raw : String) (payOk : Bool),
      sessionExpiredNow u now = true →
      add_to_cart cfg u now item
          = (clear_session u, [Msg.cbSessionExpired, Msg.sessionExpired])
      ∧ clear_cart cfg u now
          = (clear_session u, [Msg.cbSessionExpired, Msg.sessionExpired])
      ∧ (u.form.isSome = true →
          handle_checkout_input cfg u now raw = (clear_session u, [Msg.sessionExpired]))
      ∧ confirm_order cfg store u now today payOk
          = (clear_session u, store, [Msg.cbSessionExpired, Msg.sessionExpired], false) := by
  intro cfg store u now today item raw payOk h
  refine ⟨?_, ?_, ?_, ?_⟩
  · simp [add_to_cart, check_and_handle_expiry, h]
  · simp [clear_cart, check_and_handle_expiry, h]
  · intro hf
    obtain ⟨f, hf⟩ := Option.isSome_iff_exists.mp hf
    simp [handle_checkout_input, check_and_handle_expiry, h, hf]
  · simp [confirm_order, check_and_handle_expiry, h]

/-- Witness for the C3 theorem at a concrete expired session. -/
theorem expiry_guard_witness :
    sessionExpiredNow uMid 7200 = true
    ∧ add_to_cart exCfg uMid 7200 "Sticker A"
        = (clear_session uMid, [Msg.cbSessionExpired, Msg.sessionExpired]) :=
  ⟨by decide,
   (expiry_guard_on_mutating_entries exCfg store0 uMid 7200 "251012" "Sticker A"
      "hi" true (by decide)).1⟩

/-- C4: over every sequence of cart operations (add, increment, decrement,
remove, clear) applied from the freshly created empty cart, every present key
maps to a quantity of at least one — no zero-valued entry ever persists (and
quantities are naturals, so no negative ones can). -/
theorem cart_quantities_positive :
    ∀ (catalog : List (String × Nat)) (ops : List CartOp),
      cartInv (ops.foldl (applyCartOp catalog) []) := by
  intro catalog ops
  exact foldl_cartInv catalog ops [] (fun p hp => absurd hp (List.not_mem_nil p))

/-- C5: a raw text failing the active field's rule leaves the per-user state
unchanged — same cursor, same answers — and only re-prompts the same field
with a validation error. -/
theorem invalid_input_preserves_form :
    ∀ (cfg : Config) (u : UserState) (f : Form) (now : Nat) (raw : String),
      u.form = some f → f.step < delivery_steps.length →
      sessionExpiredNow u now = false →
      validate_field (delivery_steps.getD f.step "") (pyStrip raw) = false →
      handle_checkout_input cfg u now raw
        = (u, [Msg.validationError (delivery_steps.getD f.step ""),
               Msg.prompt (delivery_steps.getD f.step "")]) := by
  intro cfg u f now raw hf hstep hexp hval
  have hnot : ¬ delivery_steps.length ≤ f.step := by omega
  simp at hval
  simp [handle_checkout_input, check_and_handle_expiry, hf, hexp, hnot, hval]

/-- Witness for the C5 theorem: "J" fails the name rule at step 0 and the
state is unchanged. -/
theorem invalid_input_witness :
    uStart.form = some ⟨0, []⟩
    ∧ handle_checkout_input exCfg uStart 0 "J"
        = (uStart, [Msg.validationError (delivery_steps.getD 0 ""),
                    Msg.prompt (delivery_steps.getD 0 "")]) :=
  ⟨rfl, invalid_input_preserves_form exCfg uStart ⟨0, []⟩ 0 "J" rfl (by decide)
    (by decide) (by decide)⟩

/-- C6: back at step 0 changes nothing and answers that the user is already at
the first step; back at step k > 0 moves the cursor to k − 1 and leaves the
answers mapping (hence the answer for field k − 1) untouched. -/
theorem back_step_behavior :
    ∀ (u : UserState) (f : Form), u.form = some f →
      (f.step = 0 → go_back u = (u, [Msg.cbAlreadyFirst]))
      ∧ (0 < f.step →
          go_back u = ({ u with form := some ⟨f.step - 1, f.data⟩ },
                       [Msg.prompt (delivery_steps.getD (f.step - 1) "")])) := by
  intro u f hf
  constructor
  · intro h0
    simp [go_back, hf, h0]
  · intro hpos
    have h0 : ¬ f.step = 0 := by omega
    simp [go_back, hf, h0]

/-- Witness for the C6 theorem at step 2. -/
theorem back_step_witness :
    0 < (2 : Nat)
    ∧ go_back uMid = ({ uMid with form := some ⟨1, midData⟩ },
        [Msg.prompt (delivery_steps.getD 1 "")]) :=
  ⟨by decide, (back_step_behavior uMid ⟨2, midData⟩ rfl).2 (by decide)⟩

/-- C7: every minted id is the rendering ORD-today-paddedcount of the next
counter value; n successive same-day calls mint counter values base+1 through
base+n (strictly increasing), and the resulting id list has no duplicate, so
no id is ever reused within a day.  Persistence is the threaded counter
state, which the source writes to `order_counter.json` on every call. -/
theorem order_id_format_unique :
    ∀ (counters : List (String × Nat)) (today : String) (n : Nat),
      (generate_order_id counters today).1
          = orderIdString today (baseCount counters today + 1)
      ∧ (mintList n counters today).1
          = (List.range n).map
              (fun m => orderIdString today (baseCount counters today + m + 1))
      ∧ ((mintList n counters today).1).Nodup := by
  intro cs today n
  refine ⟨rfl, mintList_fst n cs today, ?_⟩
  rw [mintList_fst]
  refine List.Nodup.map_on ?_ (List.nodup_range n)
  intro x _ y _ hxy
  have hc := orderIdString_count_inj hxy
  omega

/-- C8: evaluation at the failing input.  With the subtotal at or above the
free-delivery threshold the delivery fee is 0, `notify_admins` raises
(`delivery_text` is only assigned under `if delivery:`), and `confirm_order`
aborts after the pending CSV append but before the payment step and the
session reset — cart and form survive, contradicting the claimed
unconditional full reset.  For contrast, with a nonzero fee and a failed
payment the order is saved as pending, the user is told payment setup
failed, and the session is fully cleared, as the claim says. -/
theorem confirm_free_delivery_crash :
    confirm_order exCfg store0 uFree 0 "251012" false
      = (uFree, ⟨[("251012", 1)], [record1200]⟩, [Msg.cbOrderSaved], true)
    ∧ record1200.status = "pending"
    ∧ uFree.cart ≠ []
    ∧ uFree.form.isSome = true
    ∧ confirm_order exCfg store0 uReview 0 "251012" false
      = (clear_session uReview, ⟨[("251012", 1)], [record850]⟩,
         [Msg.cbOrderSaved, Msg.paymentFailed], false)
    ∧ record850.status = "pending" := by decide

/-- C9 counterexample: with the maintenance flag on, the add-to-cart button
handler still runs in full — the cart mutates and no maintenance message is
produced. -/
theorem maintenance_not_blocking_add :
    exCfgMaint.maintenance = true
    ∧ (add_to_cart exCfgMaint uFresh 0 "Sticker A").1.cart = [("Sticker A", 1)]
    ∧ Msg.maintenanceNotice ∉ (add_to_cart exCfgMaint uFresh 0 "Sticker A").2 := by
  decide

/-- C9 (amended): while maintenance is active, the /start, /restart and /order
command handlers are blocked with the fixed maintenance message and change no
state; the shopper button callbacks and the checkout text input perform no
maintenance check at all (see the counterexample). -/
theorem maintenance_blocks_commands :
    ∀ (cfg : Config) (u : UserState) (now : Nat), cfg.maintenance = true →
      start cfg u now = (u, [Msg.maintenanceNotice])
      ∧ restart cfg u = (u, [Msg.maintenanceNotice])
      ∧ order cfg u now = (u, [Msg.maintenanceNotice]) := by
  intro cfg u now h
  exact ⟨by simp [start, h], by simp [restart, h], by simp [order, h]⟩

/-- Witness for the C9 theorem: /order under maintenance. -/
theorem maintenance_blocks_witness :
    exCfgMaint.maintenance = true
    ∧ order exCfgMaint uFresh 0 = (uFresh, [Msg.maintenanceNotice]) :=
  ⟨rfl, (maintenance_blocks_commands exCfgMaint uFresh 0 rfl).2.2⟩

/-- C10 counterexample: an incoming text at cursor 5 is not always silently
ignored — for an expired session the handler clears the cart and form and
sends an expiry notice, so a reply is produced and the state changes. -/
theorem review_text_expired_counterexample :
    uReview.form = some ⟨5, fullData⟩
    ∧ sessionExpiredNow uReview 7200 = true
    ∧ handle_checkout_input exCfg uReview 7200 "hello"
        = (clear_session uReview, [Msg.sessionExpired])
    ∧ (clear_session uReview, [Msg.sessionExpired]) ≠ (uReview, ([] : List Msg)) := by
  decide

/-- C10 (amended): provided the session has not expired, a free-text message
at cursor 5 (the review state) is silently ignored — cart, cursor and answers
unchanged, no reply. -/
theorem review_text_ignored :
    ∀ (cfg : Config) (u : UserState) (f : Form) (now : Nat) (raw : String),
      u.form = some f → f.step = delivery_steps.length →
      sessionExpiredNow u now = false →
      handle_checkout_input cfg u now raw = (u, []) := by
  intro cfg u f now raw hf hstep hexp
  simp [handle_checkout_input, check_and_handle_expiry, hf, hexp, hstep]

/-- Witness for the C10 theorem at a live review-state session. -/
theorem review_text_ignored_witness :
    uReview.form = some ⟨5, fullData⟩
    ∧ handle_checkout_input exCfg uReview 0 "hello" = (uReview, []) :=
  ⟨rfl, review_text_ignored exCfg uReview ⟨5, fullData⟩ 0 "hello" rfl (by decide)
    (by decide)⟩

end StickerBot
